import Mathlib

/-!
Verification of the memphis.js client SDK (src/index.js) against its
specification.  The development shallowly embeds the connection manager
(class Memphis), the producer and consumer sessions and the small JS string
primitives they use.  JS strings are Lean strings; JS numbers are Nat;
JS undefined and null are Option.none; synchronously thrown JS errors are
Except.error.  Every definition is transcribed from src/index.js, with the
source lines noted in its doc comment.
-/

namespace MemphisJs

/-! JS string primitives used by Memphis.prototype._normalizeHost. -/

/-- Embedding of the JS test host.startsWith(p) (used at src/index.js lines
115 and 117): p is a prefix of the character data of the string. -/
def jsStartsWith (s p : String) : Bool := p.data.isPrefixOf s.data

/-- Embedding of JS String.prototype.split for a non-empty separator, on
character lists: cut at every non-overlapping occurrence of sep, left to
right.  The Nat argument is fuel for structural recursion; every step
consumes at least one character, so fuel equal to the input length never
runs out. -/
def jsSplitAux (sep : List Char) : Nat → List Char → List Char → List (List Char)
  | _, [], acc => [acc.reverse]
  | 0, c :: rest, acc => [acc.reverse ++ c :: rest]
  | fuel + 1, c :: rest, acc =>
    if sep.isPrefixOf (c :: rest) then
      acc.reverse :: jsSplitAux sep fuel (rest.drop (sep.length - 1)) []
    else
      jsSplitAux sep fuel rest (c :: acc)

/-- Embedding of the JS expression s.split(sep): the list of segments of s
between occurrences of sep. -/
def jsSplit (s sep : String) : List String :=
  (jsSplitAux sep.data s.data.length s.data []).map String.mk

/-- Embedding of the JS indexing expression s.split(sep)[1] as used in
_normalizeHost (src/index.js lines 116 and 118).  The startsWith guard in
the caller makes index 1 always present; the default stands for the JS
value undefined on the unreachable out-of-range case. -/
def jsSplitGet1 (s sep : String) : String :=
  (jsSplit s sep).getD 1 "undefined"

/-- Embedding of Memphis.prototype._normalizeHost (src/index.js lines
114-121): strip a leading scheme via split on the scheme token, taking
element 1 of the result. -/
def normalizeHost (host : String) : String :=
  if jsStartsWith host "http://" then jsSplitGet1 host "http://"
  else if jsStartsWith host "https://" then jsSplitGet1 host "https://"
  else host

/-- ASCII embedding of JS String.prototype.toLowerCase, used by the
Producer, Consumer, Factory and Station constructors. -/
def jsToLowerCase (s : String) : String := String.mk (s.data.map Char.toLower)

/-- JS runtime errors thrown by the embedded fragments. -/
inductive JsError
  | typeError (msg : String)
  | referenceError (msg : String)
  | error (msg : String)
deriving DecidableEq, Repr

/-! Connection manager: state, connect, _close, close. -/

/-- The argument object of Memphis.prototype.connect (src/index.js line 61).
A field holds none when the caller omits it (JS undefined); defaulting
happens in the parameter list of connect and is applied by connectAssign. -/
structure ConnectArgs where
  host : Option String := none
  port : Option Nat := none
  username : Option String := none
  brokerHost : Option String := none
  brokerPort : Option Nat := none
  connectionToken : Option String := none
  reconnect : Option Bool := none
  maxReconnect : Option Nat := none
  reconnectIntervalMs : Option Nat := none
  timeoutMs : Option Nat := none
deriving DecidableEq, Repr

/-- Instance state of a Memphis connection manager: the fields assigned in
the constructor (src/index.js lines 19-36) plus bookkeeping for the
socket listeners registered via client.on and for client.destroy. -/
structure MemphisState where
  isConnectionActive : Bool
  connectionId : Option String
  accessToken : Option String
  host : Option String
  port : Nat
  username : Option String
  brokerHost : Option String
  brokerPort : Nat
  connectionToken : Option String
  accessTokenTimeout : Option Nat
  reconnectAttempts : Nat
  reconnect : Bool
  maxReconnect : Nat
  reconnectIntervalMs : Nat
  timeoutMs : Nat
  socketListeners : List String
  socketDestroyed : Bool
deriving DecidableEq, Repr

/-- The state built by the Memphis constructor (src/index.js lines 19-46):
field defaults, and the error and close listeners registered on the
socket. -/
def constructorInit : MemphisState :=
  { isConnectionActive := false
    connectionId := none
    accessToken := none
    host := none
    port := 9000
    username := none
    brokerHost := none
    brokerPort := 7766
    connectionToken := none
    accessTokenTimeout := none
    reconnectAttempts := 0
    reconnect := true
    maxReconnect := 3
    reconnectIntervalMs := 200
    timeoutMs := 15000
    socketListeners := ["error", "close"]
    socketDestroyed := false }

/-- The synchronous assignment phase of Memphis.prototype.connect
(src/index.js lines 68-77), in source order.  JS evaluates
this._normalizeHost(host) by calling startsWith on the argument, so an
undefined host or brokerHost throws a TypeError at the corresponding
line; assignments made before the throw stick.  Returns the mutated
state together with the thrown error, if any. -/
def connectAssign (a : ConnectArgs) (s : MemphisState) : MemphisState × Option JsError :=
  match a.host with
  | none => (s, some (JsError.typeError "Cannot read startsWith of undefined host"))
  | some h =>
    let s1 := { s with host := some (normalizeHost h ++ "/tcp") }
    match a.brokerHost with
    | none => (s1, some (JsError.typeError "Cannot read startsWith of undefined brokerHost"))
    | some bh =>
      ({ s1 with
          brokerHost := some (normalizeHost bh)
          port := a.port.getD 9000
          username := a.username
          connectionToken := a.connectionToken
          reconnect := a.reconnect.getD true
          maxReconnect := if a.maxReconnect.getD 3 > 9 then 9 else a.maxReconnect.getD 3
          reconnectIntervalMs := a.reconnectIntervalMs.getD 200
          timeoutMs := a.timeoutMs.getD 15000 }, none)

/-- The socket data handler registered inside connect (src/index.js lines
86-92): store the connection id and the access token, schedule the token
refresh, mark the connection active and reset the reconnect attempt
counter.  The subsequent broker.connect call is external transport I/O. -/
def authDataStep (connId accessTok : String) (tokenTimer : Nat) (s : MemphisState) : MemphisState :=
  { s with
      connectionId := some connId
      accessToken := some accessTok
      accessTokenTimeout := some tokenTimer
      isConnectionActive := true
      reconnectAttempts := 0 }

/-- The argument object that _close passes to connect on a reconnect attempt
(src/index.js lines 267-276).  brokerHost and brokerPort are absent from
the source object literal, so they are undefined (none) on the retry. -/
def reconnectArgsOf (s : MemphisState) : ConnectArgs :=
  { host := s.host
    port := some s.port
    username := s.username
    connectionToken := s.connectionToken
    reconnect := some s.reconnect
    maxReconnect := some s.maxReconnect
    reconnectIntervalMs := some s.reconnectIntervalMs
    timeoutMs := some s.timeoutMs }

/-- Outcome of Memphis.prototype._close: either a reconnect attempt is
scheduled (delay, connect arguments, state after the counter increment),
or the connection is cleaned up terminally. -/
inductive CloseResult
  | scheduleReconnect (delayMs : Nat) (args : ConnectArgs) (after : MemphisState)
  | cleanup (after : MemphisState)
deriving DecidableEq, Repr

/-- Embedding of Memphis.prototype._close (src/index.js lines 262-296).  The
reconnect branch increments the attempt counter and schedules connect
after reconnectIntervalMs with the stored parameters; the else branch
removes the data, error and close listeners, destroys the socket, clears
the refresh timer and the credentials, and resets the counter. -/
def Memphis._close (s : MemphisState) : CloseResult :=
  if s.reconnect ∧ s.reconnectAttempts < s.maxReconnect then
    CloseResult.scheduleReconnect s.reconnectIntervalMs
      (reconnectArgsOf { s with reconnectAttempts := s.reconnectAttempts + 1 })
      { s with reconnectAttempts := s.reconnectAttempts + 1 }
  else
    CloseResult.cleanup
      { s with
          socketListeners := s.socketListeners.filter
            (fun l => !(l == "data" || l == "error" || l == "close"))
          socketDestroyed := true
          accessToken := none
          connectionId := none
          isConnectionActive := false
          accessTokenTimeout := none
          reconnectAttempts := 0 }

/-- Embedding of the public Memphis.prototype.close (src/index.js lines
301-312), transcribed independently of _close. -/
def Memphis.close (s : MemphisState) : MemphisState :=
  { s with
      socketListeners := s.socketListeners.filter
        (fun l => !(l == "data" || l == "error" || l == "close"))
      socketDestroyed := true
      accessToken := none
      connectionId := none
      isConnectionActive := false
      accessTokenTimeout := none
      reconnectAttempts := 0 }

/-- External events driving the connection manager after the initial connect
call: the socket close event (src/index.js lines 42-45, which clears
isConnectionActive and runs _close), receipt of the authentication
response, the reconnect timer firing (which runs the synchronous part of
connect on the stored parameters), and a user call of close. -/
inductive MEvent
  | socketClose
  | authData (connId accessTok : String) (tokenTimer : Nat)
  | reconnectTimerFires
  | userClose
deriving DecidableEq, Repr

/-- One transition of the connection manager on an external event. -/
def step (s : MemphisState) : MEvent → MemphisState
  | MEvent.socketClose =>
    match Memphis._close { s with isConnectionActive := false } with
    | CloseResult.scheduleReconnect _ _ after => after
    | CloseResult.cleanup after => after
  | MEvent.authData cid tok timer => authDataStep cid tok timer s
  | MEvent.reconnectTimerFires => (connectAssign (reconnectArgsOf s) s).1
  | MEvent.userClose => Memphis.close s

/-- States of the connection manager reachable from a fresh Memphis object
after one initial call to connect with arguments a. -/
inductive Reachable (a : ConnectArgs) : MemphisState → Prop
  | init : Reachable a (connectAssign a constructorInit).1
  | step {s} (e : MEvent) : Reachable a s → Reachable a (step s e)

/-! Promise settlement and the connect timeout. -/

/-- Settlement state of a JS promise; none stands for pending.  The first
call of resolve or reject wins and every later call is ignored. -/
inductive Settlement
  | resolved
  | rejected (msg : String)
deriving DecidableEq, Repr

/-- One resolve or reject call against the current settlement state. -/
def settle : Option Settlement → Settlement → Option Settlement
  | none, o => some o
  | some o, _ => some o

/-- The condition of the timeout callback inside connect (src/index.js lines
63-66): reconnect and maxReconnect are the call arguments after
defaulting (the raw argument, not the capped stored field), while the
attempt counter and the activity flag are read from the object when the
timer fires. -/
def connectTimeoutCond (reconnectArg : Bool) (maxReconnectArg : Nat) (s : MemphisState) : Bool :=
  !reconnectArg || (s.reconnectAttempts == maxReconnectArg) || !s.isConnectionActive

/-! Producer and consumer sessions. -/

/-- The properties defined on a Memphis instance: the fields assigned in the
constructor (src/index.js lines 20-36) and the prototype methods of class
Memphis (lines 61, 114, 123, 137, 168, 202, 236, 262, 301). -/
def memphisProperties : List String :=
  ["isConnectionActive", "connectionId", "accessToken", "host", "port",
   "username", "brokerHost", "brokerPort", "connectionToken",
   "accessTokenTimeout", "client", "reconnectAttempts", "reconnect",
   "maxReconnect", "reconnectIntervalMs", "timeoutMs", "brokerConnection",
   "connect", "_normalizeHost", "_keepAcessTokenFresh", "factory",
   "station", "producer", "consumer", "_close", "close"]

/-- The identifiers bound at module scope in src/index.js: the five require
bindings (lines 1-5), the two enum objects (lines 7-16) and the class
declarations. -/
def moduleBindings : List String :=
  ["net", "events", "broker", "uuidv4", "httpRequest", "retentionTypes",
   "storageTypes", "Memphis", "Producer", "Consumer", "Message", "Factory",
   "Station"]

/-- The destination subject derived from a stored station name, as written
in Producer.prototype.produce (line 329) and the Consumer constructor
(line 370). -/
def destinationSubject (storedStationName : String) : String :=
  storedStationName ++ ".final"

/-- The ackWait option value computed by produce (src/index.js line 329):
ackWaitSec multiplied by 1000 and again by 1000. -/
def produceAckWaitArg (ackWaitSec : Nat) : Nat := ackWaitSec * 1000 * 1000

/-- A publish call as produce would issue it, if its callee existed. -/
structure PublishCall where
  subject : String
  ackWait : Nat
deriving DecidableEq, Repr

/-- Embedding of Producer.prototype.produce (src/index.js lines 327-333).
The callee expression this.connection.publish resolves the publish
property on the Memphis connection object; JS yields undefined for an
absent property and then throws a TypeError when the call is made. -/
def Producer.produce (storedStationName : String) (ackWaitSec : Nat) : Except JsError PublishCall :=
  if memphisProperties.contains "publish" then
    Except.ok { subject := destinationSubject storedStationName
                ackWait := produceAckWaitArg ackWaitSec }
  else
    Except.error (JsError.typeError "this.connection.publish is not a function")

/-- Embedding of the subscription setup in the Consumer constructor
(src/index.js lines 370-387).  JS first reads the callee
this.connection.pullSubscribe (a property lookup, yielding undefined
without throwing), then evaluates the option object, whose ack_wait field
calls the identifier nanos; only then would the callee be invoked.  The
value ok means a subscription promise was created, whose failure the
attached catch would turn into an error event. -/
def consumerSubscribeSetup : Except JsError Unit :=
  if moduleBindings.contains "nanos" then
    if memphisProperties.contains "pullSubscribe" then
      Except.ok ()
    else
      Except.error (JsError.typeError "this.connection.pullSubscribe is not a function")
  else
    Except.error (JsError.referenceError "nanos is not defined")

/-- The string-valued instance fields a Producer object carries, as assigned
by its constructor (src/index.js lines 316-320); the connection reference
aside, these are the lower-cased producer and station names. -/
def Producer.fields (producerName stationName : String) : List (String × String) :=
  [("producerName", jsToLowerCase producerName), ("stationName", jsToLowerCase stationName)]

/-- The name field of the request body sent by Producer.prototype.destroy
(src/index.js line 347): the value of this.consumerName, a property that
does not exist on Producer objects, hence undefined (none). -/
def Producer.destroyBodyName (producerName stationName : String) : Option String :=
  (Producer.fields producerName stationName).lookup "consumerName"

/-- The station_name field of the request body sent by
Producer.prototype.destroy (src/index.js line 348). -/
def Producer.destroyBodyStation (producerName stationName : String) : Option String :=
  (Producer.fields producerName stationName).lookup "stationName"

/-- Stored names of a Producer session (src/index.js lines 316-320). -/
def Producer.storedNames (producerName stationName : String) : String × String :=
  (jsToLowerCase producerName, jsToLowerCase stationName)

/-- Stored names of a Consumer session (src/index.js lines 358-362). -/
def Consumer.storedNames (stationName consumerName consumerGroup : String) :
    String × String × String :=
  (jsToLowerCase stationName, jsToLowerCase consumerName, jsToLowerCase consumerGroup)

/-- Stored name of a Factory handle (src/index.js lines 427-431). -/
def Factory.storedName (name : String) : String := jsToLowerCase name

/-- Stored name of a Station handle (src/index.js lines 454-458). -/
def Station.storedName (name : String) : String := jsToLowerCase name

/-! Consumer event wiring. -/

/-- Object identities in the consumer event wiring: the Consumer instance
itself, the EventEmitter stored in this.eventEmitter (src/index.js line
366), and the throwaway EventEmitter whose unbound on method is stored
in this.on (line 367).  The three are distinct objects. -/
structure ConsumerWiring where
  consumerObj : Nat
  eventEmitterObj : Nat
  throwawayEmitterObj : Nat
deriving DecidableEq, Repr

/-- The wiring the Consumer constructor creates: three fresh distinct
objects. -/
def mkConsumerWiring (base : Nat) : ConsumerWiring :=
  { consumerObj := base, eventEmitterObj := base + 1, throwawayEmitterObj := base + 2 }

/-- When application code calls consumer.on(event, listener), the borrowed
EventEmitter.prototype.on runs with this bound to the Consumer instance,
so the listener is stored on the Consumer object itself. -/
def onRegistrationTarget (w : ConsumerWiring) : Nat := w.consumerObj

/-- The emit calls in the delivery loop (src/index.js line 383) and in the
subscription error handler (line 386) run on this.eventEmitter. -/
def emitTarget (w : ConsumerWiring) : Nat := w.eventEmitterObj

/-- Listener registries of all emitter-capable objects: listener identifiers
per object and event name. -/
def Registry := Nat → String → List Nat

/-- The registry with no listeners anywhere. -/
def emptyRegistry : Registry := fun _ _ => []

/-- EventEmitter registration: append the listener to the list kept on the
target object for the event. -/
def addListener (reg : Registry) (obj : Nat) (ev : String) (f : Nat) : Registry :=
  fun o e => if o = obj ∧ e = ev then reg o e ++ [f] else reg o e

/-- EventEmitter emit: the listeners invoked are exactly those registered on
the object emitted upon, in registration order. -/
def listenersInvoked (reg : Registry) (obj : Nat) (ev : String) : List Nat :=
  reg obj ev

/-- The delivery loop (src/index.js lines 382-384): every transport delivery
is wrapped in a Message and emitted, in delivery order, on
this.eventEmitter; per delivery, these are the listeners invoked. -/
def deliveryInvocations (reg : Registry) (w : ConsumerWiring) (deliveries : List Nat) :
    List (List Nat) :=
  deliveries.map (fun _ => listenersInvoked reg (emitTarget w) "message")

/-! Control-plane URLs built from the stored host. -/

/-- JS template interpolation of a possibly null string value. -/
def jsTemplate : Option String → String
  | none => "null"
  | some v => v

/-- URL of the createFactory request (src/index.js line 144), built from the
stored host and port. -/
def factoryCreateUrl (s : MemphisState) : String :=
  "http://" ++ jsTemplate s.host ++ ":" ++ toString s.port ++ "/api/factories/createFactory"

/-- URL of the destroyProducer request (src/index.js line 342), built from
the stored host of the connection the producer references. -/
def producerDestroyUrl (s : MemphisState) : String :=
  "http://" ++ jsTemplate s.host ++ "/api/producers/destroyProducer"

/-! Concrete configurations used by witnesses and counterexamples. -/

/-- A fully supplied connect configuration. -/
def claim2cfg : ConnectArgs :=
  { host := some "demo.memphis.dev"
    port := some 9000
    username := some "user"
    brokerHost := some "broker.memphis.dev"
    brokerPort := some 7766
    connectionToken := some "token"
    reconnect := some true
    maxReconnect := some 3
    reconnectIntervalMs := some 200
    timeoutMs := some 15000 }

/-- A fully supplied connect configuration for the reconnect counter claim. -/
def claim3cfg : ConnectArgs :=
  { host := some "h"
    port := some 9000
    username := some "u"
    brokerHost := some "b"
    brokerPort := some 7766
    connectionToken := some "t"
    reconnect := some true
    maxReconnect := some 3
    reconnectIntervalMs := some 200
    timeoutMs := some 15000 }

/-- A connect configuration whose host carries a leading scheme. -/
def claim10cfg : ConnectArgs :=
  { host := some ("http://" ++ "x.y")
    brokerHost := some "broker" }

/-- The connect arguments carried by a scheduleReconnect outcome of _close. -/
def closeReconnectArgs : CloseResult → Option ConnectArgs
  | CloseResult.scheduleReconnect _ args _ => some args
  | CloseResult.cleanup _ => none

/-! Helper lemmas about the JS string primitives. -/

/-- Boolean prefix test agrees with the prefix relation on character lists. -/
theorem isPrefixOf_true_iff {l₁ l₂ : List Char} : l₁.isPrefixOf l₂ = true ↔ l₁ <+: l₂ :=
  List.isPrefixOf_iff_prefix

/-- A prefix of a list also occurs inside it. -/
theorem isSubOfStart {l₁ l₂ : List Char} (h : l₁ <+: l₂) : l₁ <:+: l₂ :=
  List.IsPrefix.isInfix h

/-- When the separator occurs nowhere in the input, jsSplitAux returns the
accumulator followed by the whole input, as one segment. -/
theorem jsSplitAux_no_occ (sep : List Char) :
    ∀ fuel r acc, r.length ≤ fuel → ¬ sep <:+: r →
      jsSplitAux sep fuel r acc = [acc.reverse ++ r] := by
  intro fuel
  induction fuel with
  | zero =>
    intro r acc hlen _
    have hr : r = [] := List.eq_nil_of_length_eq_zero (Nat.le_zero.mp hlen)
    subst hr
    simp [jsSplitAux]
  | succ n ih =>
    intro r acc hlen hocc
    cases r with
    | nil => simp [jsSplitAux]
    | cons c rest =>
      have hpre : ¬ (sep.isPrefixOf (c :: rest) = true) := by
        intro hb
        exact hocc (isSubOfStart (isPrefixOf_true_iff.mp hb))
      have hlen2 : rest.length ≤ n := by
        simp only [List.length_cons] at hlen
        omega
      have hocc2 : ¬ sep <:+: rest := fun hx => hocc (List.infix_cons hx)
      simp only [jsSplitAux]
      rw [if_neg hpre, ih rest (c :: acc) hlen2 hocc2]
      simp

/-- JS split of sep ++ r on sep, when sep occurs nowhere in r, yields the
empty segment followed by r. -/
theorem jsSplit_sep_append (sep r : String) (c : Char) (cs : List Char)
    (hsep : sep.data = c :: cs) (hocc : ¬ sep.data <:+: r.data) :
    jsSplit (sep ++ r) sep = ["", r] := by
  unfold jsSplit
  rw [String.data_append, hsep]
  simp only [List.cons_append, List.length_cons]
  have hp : (c :: cs).isPrefixOf (c :: (cs ++ r.data)) = true := by
    apply isPrefixOf_true_iff.mpr
    rw [← List.cons_append]
    exact List.prefix_append _ _
  simp only [jsSplitAux]
  rw [if_pos hp]
  have hdrop : (cs ++ r.data).drop ((c :: cs).length - 1) = r.data := by
    simp only [List.length_cons, Nat.succ_sub_one]
    exact List.drop_left cs r.data
  rw [hdrop]
  have hfuel : r.data.length ≤ (cs ++ r.data).length := by
    rw [List.length_append]; omega
  have hocc2 : ¬ (c :: cs) <:+: r.data := by rw [← hsep]; exact hocc
  rw [jsSplitAux_no_occ (c :: cs) (cs ++ r.data).length r.data [] hfuel hocc2]
  simp only [List.reverse_nil, List.nil_append, List.map]

/-- Host normalization strips a leading http scheme exactly when the
remainder does not itself contain the scheme token. -/
theorem normalizeHost_of_http (r : String) (hocc : ¬ ("http://".data <:+: r.data)) :
    normalizeHost ("http://" ++ r) = r := by
  have hstart : jsStartsWith ("http://" ++ r) "http://" = true := by
    unfold jsStartsWith
    rw [String.data_append]
    exact isPrefixOf_true_iff.mpr (List.prefix_append _ _)
  unfold normalizeHost
  rw [if_pos hstart]
  unfold jsSplitGet1
  rw [jsSplit_sep_append "http://" r 'h' [ 't', 't', 'p', ':', '/', '/'] rfl hocc]
  rfl

/-- Host normalization strips a leading https scheme exactly when the
remainder does not itself contain the scheme token. -/
theorem normalizeHost_of_https (r : String) (hocc : ¬ ("https://".data <:+: r.data)) :
    normalizeHost ("https://" ++ r) = r := by
  have hstart1 : jsStartsWith ("https://" ++ r) "http://" = false := by
    unfold jsStartsWith
    rw [String.data_append]
    show (['h', 't', 't', 'p', ':', '/', '/'] : List Char).isPrefixOf
      (['h', 't', 't', 'p', 's', ':', '/', '/'] ++ r.data) = false
    simp [List.isPrefixOf]
  have hstart2 : jsStartsWith ("https://" ++ r) "https://" = true := by
    unfold jsStartsWith
    rw [String.data_append]
    exact isPrefixOf_true_iff.mpr (List.prefix_append _ _)
  unfold normalizeHost
  rw [if_neg (by simp [hstart1]), if_pos hstart2]
  unfold jsSplitGet1
  rw [jsSplit_sep_append "https://" r 'h' [ 't', 't', 'p', 's', ':', '/', '/'] rfl hocc]
  rfl

/-- The conditional cap written at src/index.js line 75 is the minimum
with 9. -/
theorem cap_eq_min (m : Nat) : (if m > 9 then 9 else m) = min m 9 := by
  split <;> omega

/-- One step of the connection manager preserves the stored cap and keeps
the attempt counter at or below it. -/
theorem step_preserves_bound (cap : Nat) (s : MemphisState) (e : MEvent)
    (h1 : s.maxReconnect = cap) (h2 : s.reconnectAttempts ≤ cap) :
    (step s e).maxReconnect = cap ∧ (step s e).reconnectAttempts ≤ cap := by
  cases e with
  | socketClose =>
    by_cases hc : (s.reconnect = true ∧ s.reconnectAttempts < s.maxReconnect)
    · simp only [step, Memphis._close]
      rw [if_pos hc]
      refine ⟨h1, ?_⟩
      show s.reconnectAttempts + 1 ≤ cap
      have h3 := hc.2
      omega
    · simp only [step, Memphis._close]
      rw [if_neg hc]
      exact ⟨h1, Nat.zero_le _⟩
  | authData cid tok timer =>
    exact ⟨h1, Nat.zero_le _⟩
  | reconnectTimerFires =>
    cases hsh : s.host with
    | none => simp [step, connectAssign, reconnectArgsOf, hsh, h1, h2]
    | some h4 => simp [step, connectAssign, reconnectArgsOf, hsh, h1, h2]
  | userClose =>
    exact ⟨h1, Nat.zero_le _⟩

/-- Invariant of the connection manager: along every state reachable after
an initial connect whose arguments supply host, brokerHost and
maxReconnect, the stored cap equals min maxReconnect 9 and the attempt
counter never exceeds it. -/
theorem reachable_attempts_invariant (a : ConnectArgs) (h0 bh : String) (m : Nat)
    (hh : a.host = some h0) (hb : a.brokerHost = some bh) (hm : a.maxReconnect = some m) :
    ∀ s, Reachable a s → s.maxReconnect = min m 9 ∧ s.reconnectAttempts ≤ min m 9 := by
  intro s hs
  induction hs with
  | init =>
    refine ⟨?_, ?_⟩ <;>
      simp [connectAssign, hh, hb, hm, constructorInit, cap_eq_min]
  | @step s1 e hs ih =>
    exact step_preserves_bound (min m 9) s1 e ih.1 ih.2

/-! Claim theorems. -/

/-- C1: when the connect timeout fires while no active connection has been
established, the callback condition holds, the still-pending promise
(resolve is reached only after the data handler has marked the
connection active) is rejected with the connection-timeout error, and a
later resolve cannot change a settled promise. -/
theorem claim1_connect_timeout_rejects (r : Bool) (mr : Nat) (s : MemphisState)
    (p : Option Settlement) (hp : p = none) (hs : s.isConnectionActive = false) :
    connectTimeoutCond r mr s = true ∧
    settle p (Settlement.rejected "Connection timeout has reached") =
      some (Settlement.rejected "Connection timeout has reached") ∧
    settle (settle p (Settlement.rejected "Connection timeout has reached"))
        Settlement.resolved =
      some (Settlement.rejected "Connection timeout has reached") := by
  subst hp
  refine ⟨?_, rfl, rfl⟩
  simp [connectTimeoutCond, hs]

/-- Witness for C1 at a concrete inactive state and a pending promise. -/
theorem claim1_witness :
    connectTimeoutCond true 3 constructorInit = true ∧
    settle none (Settlement.rejected "Connection timeout has reached") =
      some (Settlement.rejected "Connection timeout has reached") ∧
    settle (settle none (Settlement.rejected "Connection timeout has reached"))
        Settlement.resolved =
      some (Settlement.rejected "Connection timeout has reached") :=
  claim1_connect_timeout_rejects true 3 constructorInit none rfl rfl

/-- C2 counterexample: after connecting with claim2cfg and a socket close,
the argument object _close passes to connect is not the original one:
the host field carries the stored "/tcp"-suffixed host, and brokerHost
and brokerPort are undefined instead of the original broker address. -/
theorem claim2_counterexample :
    closeReconnectArgs (Memphis._close
        { (connectAssign claim2cfg constructorInit).1 with isConnectionActive := false }) =
      some { claim2cfg with
              host := some "demo.memphis.dev/tcp"
              brokerHost := none
              brokerPort := none } ∧
    ({ claim2cfg with
        host := some "demo.memphis.dev/tcp"
        brokerHost := none
        brokerPort := none } : ConnectArgs) ≠ claim2cfg := by
  decide

/-- C2 amended: on socket close with reconnect enabled and the attempt
counter below the cap, _close increments the counter, schedules the
retry after reconnectIntervalMs, and re-invokes connect with the stored
host, port, username, connectionToken, reconnect, maxReconnect,
reconnectIntervalMs and timeoutMs, omitting brokerHost and brokerPort;
and the stored host a connect call leaves behind is the normalized host
argument with "/tcp" appended, not the argument itself. -/
theorem claim2_reconnect_params (s t : MemphisState) (a : ConnectArgs) (h0 : String)
    (hr : s.reconnect = true) (ha : s.reconnectAttempts < s.maxReconnect)
    (hah : a.host = some h0) :
    Memphis._close s = CloseResult.scheduleReconnect s.reconnectIntervalMs
      { host := s.host
        port := some s.port
        username := s.username
        connectionToken := s.connectionToken
        reconnect := some true
        maxReconnect := some s.maxReconnect
        reconnectIntervalMs := some s.reconnectIntervalMs
        timeoutMs := some s.timeoutMs }
      { s with reconnectAttempts := s.reconnectAttempts + 1 } ∧
    (connectAssign a t).1.host = some (normalizeHost h0 ++ "/tcp") := by
  constructor
  · simp only [Memphis._close]
    rw [if_pos ⟨hr, ha⟩]
    simp [reconnectArgsOf, hr]
  · cases hab2 : a.brokerHost with
    | none => simp [connectAssign, hah, hab2]
    | some bh2 => simp [connectAssign, hah, hab2]

/-- Witness for C2 amended, at the fresh constructor state and claim2cfg. -/
theorem claim2_witness :
    Memphis._close constructorInit = CloseResult.scheduleReconnect
      constructorInit.reconnectIntervalMs
      { host := constructorInit.host
        port := some constructorInit.port
        username := constructorInit.username
        connectionToken := constructorInit.connectionToken
        reconnect := some true
        maxReconnect := some constructorInit.maxReconnect
        reconnectIntervalMs := some constructorInit.reconnectIntervalMs
        timeoutMs := some constructorInit.timeoutMs }
      { constructorInit with reconnectAttempts := constructorInit.reconnectAttempts + 1 } ∧
    (connectAssign claim2cfg constructorInit).1.host =
      some (normalizeHost "demo.memphis.dev" ++ "/tcp") :=
  claim2_reconnect_params constructorInit constructorInit claim2cfg
    "demo.memphis.dev" rfl (by decide) rfl

/-- C3: in every state reachable after an initial connect whose arguments
supply host, brokerHost and maxReconnect m, the reconnect attempt
counter never exceeds min m 9, and receipt of the authentication
response resets the counter to 0. -/
theorem claim3_reconnect_counter_bounded (a : ConnectArgs) (h0 bh cid tok : String)
    (m timer : Nat) (s : MemphisState)
    (hh : a.host = some h0) (hb : a.brokerHost = some bh) (hm : a.maxReconnect = some m)
    (hs : Reachable a s) :
    s.reconnectAttempts ≤ min m 9 ∧
    (step s (MEvent.authData cid tok timer)).reconnectAttempts = 0 := by
  refine ⟨(reachable_attempts_invariant a h0 bh m hh hb hm s hs).2, ?_⟩
  simp [step, authDataStep]

/-- Witness for C3 at claim3cfg, after one socket close event. -/
theorem claim3_witness :
    (step (connectAssign claim3cfg constructorInit).1 MEvent.socketClose).reconnectAttempts ≤
      min 3 9 ∧
    (step (step (connectAssign claim3cfg constructorInit).1 MEvent.socketClose)
        (MEvent.authData "cid" "tok" 5)).reconnectAttempts = 0 :=
  claim3_reconnect_counter_bounded claim3cfg "h" "b" "cid" "tok" 3 5 _ rfl rfl rfl
    (Reachable.step MEvent.socketClose Reachable.init)

/-- C4 fails on the code: the public on method is the unbound
EventEmitter.prototype.on borrowed from a throwaway emitter, so a
listener registered through it lands on the Consumer object itself,
while message events are emitted on the separate internal EventEmitter;
the listener is recorded, yet it is invoked for none of the delivered
messages. -/
theorem claim4_on_listeners_never_receive :
    listenersInvoked
        (addListener emptyRegistry (onRegistrationTarget (mkConsumerWiring 0)) "message" 7)
        (onRegistrationTarget (mkConsumerWiring 0)) "message" = [7] ∧
    onRegistrationTarget (mkConsumerWiring 0) ≠ emitTarget (mkConsumerWiring 0) ∧
    deliveryInvocations
        (addListener emptyRegistry (onRegistrationTarget (mkConsumerWiring 0)) "message" 7)
        (mkConsumerWiring 0) [100, 101, 102] = [[], [], []] := by
  refine ⟨?_, by decide, ?_⟩ <;>
    simp [listenersInvoked, addListener, deliveryInvocations, emptyRegistry,
          onRegistrationTarget, emitTarget, mkConsumerWiring]

/-- C5 fails on the code: produce calls publish on the Memphis connection
object, which has no publish property (the jetstream client sits in its
brokerConnection field), so every produce call throws a TypeError
instead of publishing; moreover the ackWait argument it would pass is
the seconds value scaled by one million, not by the billion required
for the nanosecond unit of the transport. -/
theorem claim5_produce_throws_and_wrong_unit :
    Producer.produce "mystation" 15 =
      Except.error (JsError.typeError "this.connection.publish is not a function") ∧
    produceAckWaitArg 15 = 15000000 ∧
    produceAckWaitArg 15 ≠ 15 * 1000000000 :=
  ⟨rfl, rfl, by decide⟩

/-- C6 fails on the code: evaluating the subscription options calls nanos,
an identifier bound nowhere in the module, so the Consumer constructor
throws a ReferenceError synchronously to its caller; the catch handler
that would emit an error event is never attached (and
this.connection.pullSubscribe does not exist on the Memphis object
either). -/
theorem claim6_consumer_construction_throws :
    consumerSubscribeSetup = Except.error (JsError.referenceError "nanos is not defined") ∧
    moduleBindings.contains "nanos" = false ∧
    memphisProperties.contains "pullSubscribe" = false :=
  ⟨rfl, by decide, by decide⟩

/-- C7 fails on the code: the destroy request body of a producer reads
this.consumerName, a property absent on Producer objects, so its name
field is undefined instead of the lower-cased producer name; the
station_name field is correct. -/
theorem claim7_destroy_sends_undefined_name :
    Producer.destroyBodyName "MyProducer" "MyStation" = none ∧
    Producer.destroyBodyName "MyProducer" "MyStation" ≠ some (jsToLowerCase "MyProducer") ∧
    Producer.destroyBodyStation "MyProducer" "MyStation" = some (jsToLowerCase "MyStation") := by
  decide

/-- C8: producer, consumer, factory and station handles store the
lower-cased forms of the caller-supplied names, so stored names and the
destination subjects derived from them coincide for inputs that differ
only in casing. -/
theorem claim8_names_lowercased (p1 p2 s1 s2 c1 c2 g1 g2 f1 f2 n1 n2 : String)
    (hp : jsToLowerCase p1 = jsToLowerCase p2) (hs : jsToLowerCase s1 = jsToLowerCase s2)
    (hc : jsToLowerCase c1 = jsToLowerCase c2) (hg : jsToLowerCase g1 = jsToLowerCase g2)
    (hf : jsToLowerCase f1 = jsToLowerCase f2) (hn : jsToLowerCase n1 = jsToLowerCase n2) :
    Producer.storedNames p1 s1 = (jsToLowerCase p1, jsToLowerCase s1) ∧
    Consumer.storedNames s1 c1 g1 =
      (jsToLowerCase s1, jsToLowerCase c1, jsToLowerCase g1) ∧
    Factory.storedName f1 = jsToLowerCase f1 ∧
    Station.storedName n1 = jsToLowerCase n1 ∧
    Producer.storedNames p1 s1 = Producer.storedNames p2 s2 ∧
    Consumer.storedNames s1 c1 g1 = Consumer.storedNames s2 c2 g2 ∧
    Factory.storedName f1 = Factory.storedName f2 ∧
    Station.storedName n1 = Station.storedName n2 ∧
    destinationSubject (Producer.storedNames p1 s1).2 =
      destinationSubject (Producer.storedNames p2 s2).2 := by
  simp [Producer.storedNames, Consumer.storedNames, Factory.storedName,
        Station.storedName, destinationSubject, hp, hs, hc, hg, hf, hn]

/-- Witness for C8 at mixed-case names. -/
theorem claim8_witness :
    Producer.storedNames "ProdA" "StatB" = (jsToLowerCase "ProdA", jsToLowerCase "StatB") ∧
    Consumer.storedNames "StatB" "ConsC" "GrpD" =
      (jsToLowerCase "StatB", jsToLowerCase "ConsC", jsToLowerCase "GrpD") ∧
    Factory.storedName "FacE" = jsToLowerCase "FacE" ∧
    Station.storedName "StnF" = jsToLowerCase "StnF" ∧
    Producer.storedNames "ProdA" "StatB" = Producer.storedNames "pRODa" "sTATb" ∧
    Consumer.storedNames "StatB" "ConsC" "GrpD" = Consumer.storedNames "sTATb" "cONSc" "gRPd" ∧
    Factory.storedName "FacE" = Factory.storedName "fACe" ∧
    Station.storedName "StnF" = Station.storedName "sTNf" ∧
    destinationSubject (Producer.storedNames "ProdA" "StatB").2 =
      destinationSubject (Producer.storedNames "pRODa" "sTATb").2 :=
  claim8_names_lowercased "ProdA" "pRODa" "StatB" "sTATb" "ConsC" "cONSc" "GrpD" "gRPd"
    "FacE" "fACe" "StnF" "sTNf" (by decide) (by decide) (by decide) (by decide)
    (by decide) (by decide)

/-- C9: when reconnect is disabled or the attempts are exhausted, _close
performs exactly the state transition of the public close method. -/
theorem claim9_close_cleanup_equiv (s : MemphisState)
    (h : ¬(s.reconnect = true ∧ s.reconnectAttempts < s.maxReconnect)) :
    Memphis._close s = CloseResult.cleanup (Memphis.close s) := by
  simp only [Memphis._close]
  rw [if_neg h]
  rfl

/-- Witness for C9 at a state with reconnect disabled. -/
theorem claim9_witness :
    Memphis._close { constructorInit with reconnect := false } =
      CloseResult.cleanup (Memphis.close { constructorInit with reconnect := false }) :=
  claim9_close_cleanup_equiv { constructorInit with reconnect := false } (by decide)

/-- C10 counterexample: for the input host "http://http://x" the stored host
is "/tcp": JS split cuts the host at the second occurrence of the scheme
token, so the stored value is not the scheme-stripped input "http://x"
with "/tcp" appended. -/
theorem claim10_counterexample :
    (connectAssign ({ host := some "http://http://x" } : ConnectArgs)
        constructorInit).1.host = some "/tcp" ∧
    some "/tcp" ≠ some ("http://x" ++ "/tcp") := by
  decide

/-- C10 amended: after connect the stored host is the input host with a
leading scheme token stripped and "/tcp" appended, provided the
remainder does not itself contain the scheme token (JS split otherwise
cuts at the next occurrence, as the counterexample shows); and this
stored value, not the original input, is interpolated into the
control-plane request URLs and handed back to connect by the reconnect
path. -/
theorem claim10_stored_host (a : ConnectArgs) (h0 r : String) (s : MemphisState)
    (hh : a.host = some h0)
    (hcase :
      (h0 = "http://" ++ r ∧ ¬ ("http://".data <:+: r.data)) ∨
      (h0 = "https://" ++ r ∧ ¬ ("https://".data <:+: r.data)) ∨
      (h0 = r ∧ jsStartsWith r "http://" = false ∧ jsStartsWith r "https://" = false)) :
    (connectAssign a s).1.host = some (r ++ "/tcp") ∧
    factoryCreateUrl (connectAssign a s).1 =
      "http://" ++ (r ++ "/tcp") ++ ":" ++ toString (connectAssign a s).1.port ++
        "/api/factories/createFactory" ∧
    producerDestroyUrl (connectAssign a s).1 =
      "http://" ++ (r ++ "/tcp") ++ "/api/producers/destroyProducer" ∧
    (reconnectArgsOf (connectAssign a s).1).host = some (r ++ "/tcp") := by
  have hnorm : normalizeHost h0 = r := by
    rcases hcase with ⟨he, ho⟩ | ⟨he, ho⟩ | ⟨he, h1, h2⟩
    · rw [he]; exact normalizeHost_of_http r ho
    · rw [he]; exact normalizeHost_of_https r ho
    · rw [he]; unfold normalizeHost; rw [if_neg (by simp [h2, h1]), if_neg (by simp [h2])]
  have hhost : (connectAssign a s).1.host = some (r ++ "/tcp") := by
    cases hab : a.brokerHost with
    | none => simp [connectAssign, hh, hab, hnorm]
    | some bh => simp [connectAssign, hh, hab, hnorm]
  refine ⟨hhost, ?_, ?_, ?_⟩
  · simp only [factoryCreateUrl]
    rw [hhost]
    rfl
  · simp only [producerDestroyUrl]
    rw [hhost]
    rfl
  · simp [reconnectArgsOf, hhost]

/-- Witness for C10 amended at claim10cfg. -/
theorem claim10_witness :
    (connectAssign claim10cfg constructorInit).1.host = some ("x.y" ++ "/tcp") ∧
    factoryCreateUrl (connectAssign claim10cfg constructorInit).1 =
      "http://" ++ ("x.y" ++ "/tcp") ++ ":" ++
        toString (connectAssign claim10cfg constructorInit).1.port ++
        "/api/factories/createFactory" ∧
    producerDestroyUrl (connectAssign claim10cfg constructorInit).1 =
      "http://" ++ ("x.y" ++ "/tcp") ++ "/api/producers/destroyProducer" ∧
    (reconnectArgsOf (connectAssign claim10cfg constructorInit).1).host =
      some ("x.y" ++ "/tcp") :=
  claim10_stored_host claim10cfg ("http://" ++ "x.y") "x.y" constructorInit rfl
    (Or.inl ⟨rfl, by decide⟩)

end MemphisJs
